import Mathlib

/-!
Shallow embedding of the time-computation core of `src/src/main.rs`
(a world-clock widget).

Modelling choices:

* A chrono `DateTime<Utc>` is represented by its timestamp in seconds
  as an `Int`; `%H:%M` formatting extracts the hour of day with
  `(t / 3600) % 24` and the minute with `(t / 60) % 60`, where `/` and
  `%` on `Int` are euclidean division and remainder, which coincide
  with the floor-division civil-time semantics of chrono for these
  positive divisors (also for instants before the epoch).
* `Utc::now()` is an ambient clock read anew at every call.  A recompute
  pass over the city list performs one `Utc::now()` call per city
  (inside `calculate_time_from_austin`), so a pass is parameterised by
  `clock : Nat → Int`, the value returned by the i-th clock read of the
  pass.  A pass at a fixed mocked instant `t` is the constant clock
  `fun _ => t`.
* A `std::time::Instant` is a `Nat` of milliseconds; `duration_since`
  saturates at zero (Rust ≥ 1.60) which `Nat` subtraction matches, and
  `as_secs` is truncating division by 1000.
-/

/-- Two-digit zero padding, as produced by chrono `%H` / `%M`. -/
def pad2 (n : Nat) : String :=
  if n < 10 then "0" ++ toString n else toString n

/-- chrono formatting of a UTC timestamp `t` (seconds) with `"%H:%M"`. -/
def fmtHM (t : Int) : String :=
  pad2 ((t / 3600) % 24).toNat ++ ":" ++ pad2 ((t / 60) % 60).toNat

/-- The record `WorldTime` of `main.rs`, field for field (`time` is the
`HH:MM` display string, `diff_hours` the hour difference from home,
`timezone_id` a stored-but-never-consulted identifier string). -/
structure WorldTime where
  name : String
  time : String
  diff_hours : Int
  is_home : Bool
  timezone_id : String
deriving DecidableEq, Repr

/-- `WorldTime::get_austin_time`: `Utc::now() + Duration::hours(-6)`;
`now` is the value this call's `Utc::now()` read returned. -/
def get_austin_time (now : Int) : Int :=
  now + (-6) * 3600

/-- `WorldTime::calculate_time_from_austin`: Austin's time plus
`austin_offset` hours, formatted `"%H:%M"`. -/
def calculate_time_from_austin (now : Int) (austin_offset : Int) : String :=
  fmtHM (get_austin_time now + austin_offset * 3600)

/-- `WorldTime::new`: stores the fields and computes the initial time
from this call's `Utc::now()` sample. -/
def WorldTime.new (name timezone_id : String) (is_home : Bool)
    (home_offset : Int) (now : Int) : WorldTime :=
  { name := name
    time := calculate_time_from_austin now home_offset
    diff_hours := home_offset
    is_home := is_home
    timezone_id := timezone_id }

/-- `WorldTime::update_time`: overwrite `time` from this call's
`Utc::now()` sample and the stored `diff_hours`. -/
def update_time (now : Int) (w : WorldTime) : WorldTime :=
  { w with time := calculate_time_from_austin now w.diff_hours }

/-- The city-update loop of `WorldTimeApp::render`, position `i` of the
pass onwards: each city's `update_time` performs its own clock read
(`clock i` is what the i-th read returns). -/
def recompute_go (clock : Nat → Int) (i : Nat) :
    List WorldTime → List WorldTime
  | [] => []
  | c :: rest => update_time (clock i) c :: recompute_go clock (i + 1) rest

/-- One recompute pass over the whole city list (the for-loop over
`self.cities` in `WorldTimeApp::render`). -/
def recompute_all (clock : Nat → Int) (cities : List WorldTime) :
    List WorldTime :=
  recompute_go clock 0 cities

/-- `WorldTimeApp`: city list plus the `last_update` instant
(milliseconds). -/
structure AppState where
  cities : List WorldTime
  last_update : Nat
deriving Repr

/-- The throttling logic of `WorldTimeApp::render`: at tick instant
`now_ms`, if `now.duration_since(last_update).as_secs() >= 60` then
update every city and advance `last_update`; the returned `Bool`
records whether the update branch ran (exactly then does the rendered
content change). -/
def render_tick (now_ms : Nat) (clock : Nat → Int) (st : AppState) :
    AppState × Bool :=
  if (now_ms - st.last_update) / 1000 ≥ 60 then
    ({ cities := recompute_all clock st.cities, last_update := now_ms }, true)
  else
    (st, false)

/-- The five-city list constructed in `main`; each `WorldTime::new`
performs one clock read, in construction order. -/
def main_cities (clock : Nat → Int) : List WorldTime :=
  [ WorldTime.new "Austin" "America/Chicago" true 0 (clock 0)
  , WorldTime.new "NYC" "America/New_York" false 1 (clock 1)
  , WorldTime.new "London" "Europe/London" false 6 (clock 2)
  , WorldTime.new "Berlin" "Europe/Berlin" false 7 (clock 3)
  , WorldTime.new "Bucharest" "Europe/Bucharest" false 8 (clock 4) ]

/-- Generalisation of the construction in `main`: build a collection
from `(name, timezone_id, is_home, offset)` tuples, each entry by
`WorldTime::new` with its own clock read.  The code performs no
validation of the tuple list. -/
def mkCities_go (clock : Nat → Int) (i : Nat) :
    List (String × String × Bool × Int) → List WorldTime
  | [] => []
  | (n, tz, h, d) :: rest => WorldTime.new n tz h d (clock i) :: mkCities_go clock (i + 1) rest

/-- Construction entry point: first clock read is read index 0. -/
def mkCities (clock : Nat → Int)
    (specs : List (String × String × Bool × Int)) : List WorldTime :=
  mkCities_go clock 0 specs

/-- Modelled from the spec: the process's local system time at UTC
instant `now`, for a process whose local zone is `local_offset` seconds
ahead of UTC, formatted `HH:MM`.  The code never consults local time;
this definition exists only to compare the code's output against the
spec's fallback claim. -/
def local_time_display (now local_offset : Int) : String :=
  fmtHM (now + local_offset)

/-- Read-only projection of everything recompute must not touch. -/
def frameOf (w : WorldTime) : String × Int × Bool × String :=
  (w.name, w.diff_hours, w.is_home, w.timezone_id)

/-- chrono `%H:%M` formatting of a UTC instant itself (no offset). -/
def utc_hhmm (t : Int) : String :=
  fmtHM t

/-! ## Helper lemmas -/

theorem pad2_length : ∀ n : Nat, n < 100 → (pad2 n).length = 2 := by
  decide

theorem hour_shift (t d : Int) :
    ((t + d * 3600) / 3600) % 24 = ((t / 3600) % 24 + d) % 24 := by
  omega

theorem minute_shift (t d : Int) :
    ((t + d * 3600) / 60) % 60 = (t / 60) % 60 := by
  omega

theorem recompute_go_getElem (clock : Nat → Int) (j : Nat)
    (cs : List WorldTime) (i : Nat) :
    (recompute_go clock j cs)[i]? = cs[i]?.map (update_time (clock (j + i))) := by
  induction cs generalizing j i with
  | nil => simp [recompute_go]
  | cons c rest ih =>
    cases i with
    | zero => simp [recompute_go]
    | succ k =>
      have hidx : j + (k + 1) = (j + 1) + k := by omega
      simp only [recompute_go, List.getElem?_cons_succ, hidx]
      exact ih (j + 1) k

theorem recompute_go_frame (clock : Nat → Int) (j : Nat)
    (cs : List WorldTime) :
    (recompute_go clock j cs).map frameOf = cs.map frameOf := by
  induction cs generalizing j with
  | nil => rfl
  | cons c rest ih =>
    simp only [recompute_go, List.map_cons, ih]
    rfl

theorem recompute_go_length (clock : Nat → Int) (j : Nat)
    (cs : List WorldTime) :
    (recompute_go clock j cs).length = cs.length := by
  induction cs generalizing j with
  | nil => rfl
  | cons c rest ih => simp [recompute_go, ih]

theorem recompute_go_idem (clock : Nat → Int) (j : Nat)
    (cs : List WorldTime) :
    recompute_go clock j (recompute_go clock j cs) = recompute_go clock j cs := by
  induction cs generalizing j with
  | nil => rfl
  | cons c rest ih =>
    simp only [recompute_go, ih]
    rfl

theorem mkCities_go_length (clock : Nat → Int) (j : Nat)
    (specs : List (String × String × Bool × Int)) :
    (mkCities_go clock j specs).length = specs.length := by
  induction specs generalizing j with
  | nil => rfl
  | cons s rest ih =>
    obtain ⟨n, tz, h, d⟩ := s
    simp [mkCities_go, ih]

theorem recompute_go_countP_home (clock : Nat → Int) (j : Nat)
    (cs : List WorldTime) :
    (recompute_go clock j cs).countP (fun w => w.is_home) =
      cs.countP (fun w => w.is_home) := by
  induction cs generalizing j with
  | nil => rfl
  | cons c rest ih => simp [recompute_go, List.countP_cons, ih, update_time]

theorem recompute_go_map_home (clock : Nat → Int) (j : Nat)
    (cs : List WorldTime) :
    (recompute_go clock j cs).map (fun w => w.is_home) =
      cs.map (fun w => w.is_home) := by
  induction cs generalizing j with
  | nil => rfl
  | cons c rest ih => simp [recompute_go, ih, update_time]

/-! ## The claims -/

/-- C1 (amended): at a recompute pass whose clock reads all return the
same instant `t`, every location's recomputed `time` equals the
reference display (`calculate_time_from_austin t 0`, the offset-0
computation) shifted by that location's `diff_hours` hours modulo 24,
with the minutes unchanged; and in the end-to-end scenario of `main`
recomputed at an instant whose Austin civil time is 14:00, London
(offset 6) displays exactly 20:00.  The unamended pass-level claim
fails only because each location performs its own clock read. -/
theorem c1_offset_relation :
    (∀ (t : Int) (w : WorldTime),
      ∃ h, h < 24 ∧ ∃ m, m < 60 ∧
        calculate_time_from_austin t 0 = pad2 h ++ ":" ++ pad2 m ∧
        (update_time t w).time =
          pad2 (((h : Int) + w.diff_hours) % 24).toNat ++ ":" ++ pad2 m) ∧
    ((recompute_all (fun _ => (72000 : Int)) (main_cities (fun _ => 0))).map
        WorldTime.time = ["14:00", "15:00", "20:00", "21:00", "22:00"]) := by
  constructor
  · intro t w
    refine ⟨(((get_austin_time t + 0 * 3600) / 3600) % 24).toNat, by omega,
            (((get_austin_time t + 0 * 3600) / 60) % 60).toNat, by omega, rfl, ?_⟩
    have hh : (((get_austin_time t + w.diff_hours * 3600) / 3600) % 24).toNat =
        ((((((get_austin_time t + 0 * 3600) / 3600) % 24).toNat : Int) +
          w.diff_hours) % 24).toNat := by
      omega
    have hm : (((get_austin_time t + w.diff_hours * 3600) / 60) % 60).toNat =
        (((get_austin_time t + 0 * 3600) / 60) % 60).toNat := by
      omega
    show pad2 (((get_austin_time t + w.diff_hours * 3600) / 3600) % 24).toNat ++
        ":" ++ pad2 (((get_austin_time t + w.diff_hours * 3600) / 60) % 60).toNat = _
    rw [hh, hm]
  · decide

/-- C1 counterexample: the claim quantifies over every recompute pass,
but a pass whose two per-location clock reads are one minute apart
(Austin read at 72000, London at 72060) recomputes Austin to "14:00"
and London to "20:01", and no HH:MM decomposition of "14:00" shifted
by London's 6 hours modulo 24 yields "20:01". -/
theorem c1_claim_false :
    ((recompute_all (fun i => if i = 0 then (72000 : Int) else 72060)
        [WorldTime.new "Austin" "America/Chicago" true 0 0,
         WorldTime.new "London" "Europe/London" false 6 0]).map WorldTime.time =
      ["14:00", "20:01"]) ∧
    (∀ h : Nat, h < 24 → ∀ m : Nat, m < 60 →
      ¬("14:00" = pad2 h ++ ":" ++ pad2 m ∧
        "20:01" = pad2 (((h : Int) + 6) % 24).toNat ++ ":" ++ pad2 m)) := by
  decide

/-- C2 (amended): the "now" instant is read once per location, not once
per pass: the i-th entry of a recompute pass is exactly the i-th city
updated with the i-th clock read, and two locations updated from one
and the same instant with equal `diff_hours` necessarily display the
same string (so only per-location reads can make cards differ). -/
theorem c2_per_location_clock :
    (∀ (clock : Nat → Int) (cs : List WorldTime) (i : Nat),
        (recompute_all clock cs)[i]? = cs[i]?.map (update_time (clock i))) ∧
    (∀ (t : Int) (w1 w2 : WorldTime), w1.diff_hours = w2.diff_hours →
        (update_time t w1).time = (update_time t w2).time) := by
  constructor
  · intro clock cs i
    simpa using recompute_go_getElem clock 0 cs i
  · intro t w1 w2 h
    simp [update_time, calculate_time_from_austin, h]

/-- Witness for the C2 amended theorem at concrete inputs. -/
theorem c2_per_location_clock_witness :
    ((recompute_all (fun _ => (72000 : Int))
        [WorldTime.new "A" "Zone/A" true 0 0])[0]? =
      some (update_time 72000 (WorldTime.new "A" "Zone/A" true 0 0))) ∧
    (update_time 72000 (WorldTime.new "A" "Zone/A" true 0 0)).time =
      (update_time 72000 (WorldTime.new "B" "Zone/B" false 0 1)).time :=
  ⟨by simpa using (c2_per_location_clock.1 (fun _ => (72000 : Int)) [WorldTime.new "A" "Zone/A" true 0 0] 0),
   c2_per_location_clock.2 72000 (WorldTime.new "A" "Zone/A" true 0 0) (WorldTime.new "B" "Zone/B" false 0 1) (by decide)⟩

/-- C2 counterexample: in a single pass whose first clock read returns
72000 and second 72060, two cards with identical configuration
(`diff_hours = 0`) come out as "14:00" and "14:01" — two cards of one
pass reflecting instants a minute apart, which a single captured "now"
could never produce. -/
theorem c2_claim_false :
    ((recompute_all (fun i => if i = 0 then (72000 : Int) else 72060)
        [WorldTime.new "A" "Zone/A" true 0 0,
         WorldTime.new "B" "Zone/B" false 0 0]).map WorldTime.time =
      ["14:00", "14:01"]) ∧
    "14:00" ≠ "14:01" := by
  decide

/-- C3: with `last_update = T`, a tick at any instant strictly before
`T + 60s` leaves the state unchanged (no recompute, no redraw: the
update branch of `WorldTimeApp::render` does not run), and a tick at
`T + 60s` or later runs the update branch: every city is updated in
one pass, the redraw flag is signalled, and `last_update` becomes the
tick's instant.  Instants are milliseconds; the `>= 60` comparison is
on `as_secs`, i.e. truncating division by 1000. -/
theorem c3_throttle (st : AppState) (now_ms : Nat) (clock : Nat → Int) :
    (now_ms < st.last_update + 60000 →
      render_tick now_ms clock st = (st, false)) ∧
    (st.last_update + 60000 ≤ now_ms →
      render_tick now_ms clock st =
        ({ cities := recompute_all clock st.cities, last_update := now_ms }, true)) := by
  constructor
  · intro h
    have hc : ¬ ((now_ms - st.last_update) / 1000 ≥ 60) := by omega
    simp only [render_tick, if_neg hc]
  · intro h
    have hc : (now_ms - st.last_update) / 1000 ≥ 60 := by omega
    simp only [render_tick, if_pos hc]

/-- Witness for C3: with `last_update = 100000` ms, a tick at 159000 ms
(59 s later) does nothing, and a tick at 160000 ms (60 s later)
recomputes and advances `last_update`. -/
theorem c3_throttle_witness :
    (render_tick 159000 (fun _ => (72000 : Int))
        { cities := [WorldTime.new "Austin" "America/Chicago" true 0 0], last_update := 100000 } =
      ({ cities := [WorldTime.new "Austin" "America/Chicago" true 0 0], last_update := 100000 }, false)) ∧
    (render_tick 160000 (fun _ => (72000 : Int))
        { cities := [WorldTime.new "Austin" "America/Chicago" true 0 0], last_update := 100000 } =
      ({ cities := recompute_all (fun _ => (72000 : Int))
            [WorldTime.new "Austin" "America/Chicago" true 0 0],
         last_update := 160000 }, true)) :=
  ⟨(c3_throttle { cities := [WorldTime.new "Austin" "America/Chicago" true 0 0], last_update := 100000 } 159000 (fun _ => (72000 : Int))).1 (by decide),
   (c3_throttle { cities := [WorldTime.new "Austin" "America/Chicago" true 0 0], last_update := 100000 } 160000 (fun _ => (72000 : Int))).2 (by decide)⟩

/-- C4 (amended): the code performs no validation of the configuration:
construction is total and yields one `WorldTime` per supplied tuple for
every input, a collection whose two entries are both marked home is
built and recomputed without any error, and the empty collection is
likewise accepted (recompute yields the empty list).  No configuration
error is raised anywhere. -/
theorem c4_no_validation :
    (∀ (clock : Nat → Int) (specs : List (String × String × Bool × Int)),
        (mkCities clock specs).length = specs.length) ∧
    ((mkCities (fun _ => (72000 : Int))
        [("A", "Zone/A", true, 0), ("B", "Zone/B", true, 0)]).countP
        (fun w => w.is_home) = 2) ∧
    ((recompute_all (fun _ => (72000 : Int))
        (mkCities (fun _ => (72000 : Int))
          [("A", "Zone/A", true, 0), ("B", "Zone/B", true, 0)])).map
        WorldTime.time = ["14:00", "14:00"]) ∧
    (recompute_all (fun _ => (72000 : Int))
        (mkCities (fun _ => (72000 : Int)) []) = []) := by
  refine ⟨fun clock specs => mkCities_go_length clock 0 specs, by decide, by decide, by decide⟩

/-- C4 counterexample: constructing the collection with two locations
both marked `is_home = true` raises no configuration error: it produces
a normal two-element collection (both flags set) on which a recompute
pass then runs to completion — contradicting the claim that such input
is rejected before any recompute occurs. -/
theorem c4_claim_false :
    ((mkCities (fun _ => (72000 : Int))
        [("A", "Zone/A", true, 0), ("B", "Zone/B", true, 0)]).length = 2) ∧
    ((mkCities (fun _ => (72000 : Int))
        [("A", "Zone/A", true, 0), ("B", "Zone/B", true, 0)]).countP
        (fun w => w.is_home) = 2) ∧
    ((recompute_all (fun _ => (72000 : Int))
        (mkCities (fun _ => (72000 : Int))
          [("A", "Zone/A", true, 0), ("B", "Zone/B", true, 0)])).length = 2) := by
  decide

/-- C5 (amended): any timezone identifier string, resolvable or not, is
accepted: construction stores it verbatim and computes the initial
time, and every recompute succeeds — but the computed display is always
the offset formula (UTC now − 6 h + diff_hours formatted HH:MM), not
the process's local system time; the identifier is never consulted. -/
theorem c5_fallback (name tzid : String) (hm : Bool) (d t t2 : Int) :
    (WorldTime.new name tzid hm d t).time = calculate_time_from_austin t d ∧
    (WorldTime.new name tzid hm d t).timezone_id = tzid ∧
    (update_time t2 (WorldTime.new name tzid hm d t)).time =
      calculate_time_from_austin t2 d :=
  ⟨rfl, rfl, rfl⟩

/-- C5 counterexample: a location built with the unresolvable
identifier "Not/AZone" and offset 0 at instant 72000 displays "14:00"
(the offset formula), while the local system time of a process whose
local zone is UTC is "20:00" at that same instant — the fallback the
claim promises does not happen (construction and recompute do succeed,
but the displayed value is not local time). -/
theorem c5_claim_false :
    ((WorldTime.new "X" "Not/AZone" false 0 72000).time = "14:00") ∧
    (local_time_display 72000 0 = "20:00") ∧
    ("14:00" ≠ "20:00") ∧
    ((update_time 72000 (WorldTime.new "X" "Not/AZone" false 0 0)).time = "14:00") := by
  decide

/-- C6: for every location whose `diff_hours` is 0 (the home card) and
every instant, the recomputed display equals the instant's UTC time
minus exactly 6 hours formatted HH:MM — the constant −6 of
`get_austin_time`, applied for every location uniformly, whatever its
`timezone_id` says and with no daylight-saving adjustment. -/
theorem c6_home_fixed_offset (t : Int) (w : WorldTime)
    (h : w.diff_hours = 0) :
    (update_time t w).time = utc_hhmm (t - 6 * 3600) := by
  simp only [update_time, calculate_time_from_austin, get_austin_time, utc_hhmm, h]
  congr 1
  ring

/-- Witness for C6 at a concrete location and instant. -/
theorem c6_home_fixed_offset_witness :
    (WorldTime.new "Austin" "America/Chicago" true 0 0).diff_hours = 0 ∧
    (update_time 72000 (WorldTime.new "Austin" "America/Chicago" true 0 0)).time =
      utc_hhmm (72000 - 6 * 3600) :=
  ⟨by decide, c6_home_fixed_offset 72000 (WorldTime.new "Austin" "America/Chicago" true 0 0) (by decide)⟩

/-- C7: recompute is idempotent at a fixed instant: running the pass a
second time with the same mocked "now" leaves every display unchanged. -/
theorem c7_idempotent (t : Int) (cs : List WorldTime) :
    recompute_all (fun _ => t) (recompute_all (fun _ => t) cs) =
      recompute_all (fun _ => t) cs :=
  recompute_go_idem (fun _ => t) 0 cs

/-- C8: the collection built by `main` has exactly one location marked
home, that count is still exactly one after any recompute pass, and a
recompute pass never changes any `is_home` flag of any collection. -/
theorem c8_unique_reference (c c2 : Nat → Int) :
    ((main_cities c).countP (fun w => w.is_home) = 1) ∧
    ((recompute_all c2 (main_cities c)).countP (fun w => w.is_home) = 1) ∧
    (∀ cs : List WorldTime,
      (recompute_all c2 cs).map (fun w => w.is_home) =
        cs.map (fun w => w.is_home)) := by
  refine ⟨rfl, ?_, fun cs => recompute_go_map_home c2 0 cs⟩
  simp only [recompute_all]
  rw [recompute_go_countP_home c2 0 (main_cities c)]
  rfl

/-- C9: a recompute pass is frame-bounded to `time`: the list of
(name, diff_hours, is_home, timezone_id) projections is unchanged, and
the collection keeps its length (no location added or removed). -/
theorem c9_frame (clock : Nat → Int) (cs : List WorldTime) :
    ((recompute_all clock cs).map frameOf = cs.map frameOf) ∧
    (recompute_all clock cs).length = cs.length :=
  ⟨recompute_go_frame clock 0 cs, recompute_go_length clock 0 cs⟩

/-- C10: every recomputed display string is exactly HH:MM — a two-digit
zero-padded hour below 24, a colon, and a two-digit zero-padded minute
below 60, five characters in all — for every location and instant. -/
theorem c10_hhmm_format (t : Int) (w : WorldTime) :
    ∃ h, h < 24 ∧ ∃ m, m < 60 ∧
      (update_time t w).time = pad2 h ++ ":" ++ pad2 m ∧
      ((update_time t w).time).length = 5 := by
  refine ⟨(((get_austin_time t + w.diff_hours * 3600) / 3600) % 24).toNat, by omega,
          (((get_austin_time t + w.diff_hours * 3600) / 60) % 60).toNat, by omega,
          rfl, ?_⟩
  have e : (update_time t w).time =
      pad2 (((get_austin_time t + w.diff_hours * 3600) / 3600) % 24).toNat ++ ":" ++
      pad2 (((get_austin_time t + w.diff_hours * 3600) / 60) % 60).toNat := rfl
  rw [e, String.length_append, String.length_append,
    pad2_length _ (by omega), pad2_length _ (by omega)]
  rfl
